import Mathlib

/-!
Verification of the Active Nap Session Manager of the `naninha` repository
(the `NapProvider` React context in `src/unnamed/part_000`).

Modelling conventions:
* Wall-clock time is an integer count of milliseconds since the epoch
  (`Int`).  The source stores `startTime` as an ISO-8601 string produced by
  `new Date().toISOString()` and reads it back with `new Date(s).getTime()`;
  that encoding is lossless at millisecond precision, so the embedding keeps
  the millisecond value directly.
* The record `Record<string, ActiveNap>` is modelled as an insertion-ordered
  association list `NapMap`.  JavaScript objects with non-index string keys
  enumerate (`Object.keys`) in insertion order; spread-adding a fresh key
  appends at the end, spread-replacing an existing key keeps its position,
  and `delete` removes the entry.
* `JSON.stringify` / `JSON.parse` on this data are modelled by an explicit
  encoder and decoder over a small JSON syntax tree `Json`.  The stored
  text is either text `JSON.parse` rejects (`StoredText.invalid`) or text
  parsing to a JSON value (`StoredText.valid`).  The source installs the
  parsed value through the compile-time-only `as Record<string, ActiveNap>`
  cast with no shape validation, so restore yields a `NapsCell`: the
  installed value, represented as `NapsCell.record m` exactly when it is
  the JSON image of a session record `m`, and as `NapsCell.raw` otherwise.
* React turn semantics: each callback (`startNap`, `stopNap`, `updateNotes`)
  runs its `setActiveNaps` updater and returns; the two `useEffect` hooks
  keyed on `[activeNaps, isLoading]` (persistence and the system
  notification) run afterwards, in a separate effect flush.  An updater
  branch that returns `prev` unchanged (the `if (prev[babyId]) return prev`
  and `if (!prev[babyId]) return prev` guards) produces the same object
  reference, so React bails out and the effects do not re-run; the model
  tracks this with a `pendingEffects` flag.
-/

inductive Gender where
  | masculino : Gender
  | feminino : Gender
deriving Repr, DecidableEq

/-- The `Baby` interface of the source: id, display name, gender. -/
structure Baby where
  id : String
  name : String
  gender : Gender
deriving Repr, DecidableEq

/-- The `ActiveNap` interface of the source.  `startTime` is kept as the
millisecond epoch value that the ISO string in the source encodes. -/
structure ActiveNap where
  babyId : String
  babyName : String
  babyGender : Gender
  startTime : Int
  notes : String
deriving Repr, DecidableEq

/-- The in-memory `Record<string, ActiveNap>`, insertion ordered. -/
abbrev NapMap := List (String × ActiveNap)

/-- Property access `m[babyId]`: the value at the first matching key. -/
def lookupNap : NapMap → String → Option ActiveNap
  | [], _ => none
  | (k, n) :: rest, i => if k = i then some n else lookupNap rest i

/-- The `delete newNaps[babyId]` statement of `stopNap`: removes the entry
with the given key (JavaScript objects hold each key at most once). -/
def eraseNap : NapMap → String → NapMap
  | [], _ => []
  | (k, n) :: rest, i =>
      if k = i then eraseNap rest i else (k, n) :: eraseNap rest i

/-- The keys of the map, in enumeration order (`Object.keys`). -/
def napKeys (m : NapMap) : List String :=
  List.map Prod.fst m

/-- The result object built by `stopNap` in the source:
`{ startTime, endTime, elapsedSeconds, notes }`. -/
structure FinalizedNap where
  startTime : Int
  endTime : Int
  elapsedSeconds : Int
  notes : String
deriving Repr, DecidableEq

/-- The system notification content pushed by `showNapNotification`
(baby name, gender and elapsed seconds); `none` models a dismissed
notification. -/
structure NotifContent where
  babyName : String
  babyGender : Gender
  elapsedSeconds : Int
deriving Repr, DecidableEq

/-! ### JSON serialization (`JSON.stringify` / `JSON.parse`) -/

/-- A small JSON syntax tree: exactly the shapes `JSON.stringify` produces
for a `Record<string, ActiveNap>`, plus arbitrary other shapes so that a
malformed stored value can be represented. -/
inductive Json where
  | jstr : String → Json
  | jint : Int → Json
  | jobj : List (String × Json) → Json
deriving Repr

/-- Gender values serialize as their literal strings. -/
def encodeGender : Gender → String
  | .masculino => "masculino"
  | .feminino => "feminino"

def decodeGender : String → Option Gender
  | "masculino" => some Gender.masculino
  | "feminino" => some Gender.feminino
  | _ => none

/-- The JSON object `JSON.stringify` produces for one `ActiveNap`. -/
def encodeNap (n : ActiveNap) : Json :=
  .jobj [("babyId", .jstr n.babyId), ("babyName", .jstr n.babyName),
         ("babyGender", .jstr (encodeGender n.babyGender)),
         ("startTime", .jint n.startTime), ("notes", .jstr n.notes)]

/-- Reading one `ActiveNap` back from its JSON object; `none` on any shape
that `JSON.stringify` of an `ActiveNap` cannot have produced. -/
def decodeNap : Json → Option ActiveNap
  | .jobj [("babyId", .jstr i), ("babyName", .jstr nm),
           ("babyGender", .jstr g), ("startTime", .jint t),
           ("notes", .jstr no)] =>
      Option.map (fun gg => ⟨i, nm, gg, t, no⟩) (decodeGender g)
  | _ => none

/-- The JSON object for the whole nap record. -/
def encodeNaps (m : NapMap) : Json :=
  .jobj (List.map (fun p => (p.1, encodeNap p.2)) m)

def decodeEntries : List (String × Json) → Option NapMap
  | [] => some []
  | (k, v) :: rest =>
      match decodeNap v, decodeEntries rest with
      | some n, some m => some ((k, n) :: m)
      | _, _ => none

/-- Reading the whole record back (`JSON.parse(stored)` used as
`Record<string, ActiveNap>`); `none` models a parse failure. -/
def decodeNaps : Json → Option NapMap
  | .jobj fields => decodeEntries fields
  | _ => none

/-! ### The persistence and notification effects -/

/-- The `persistNaps` effect body: when the record is non-empty the
serialized record is written under the storage key (`setItem`), otherwise
the key is removed (`removeItem`).  The resulting stored value does not
depend on the previous one, since `setItem` overwrites. -/
def persistNaps (m : NapMap) : Option Json :=
  if napKeys m ≠ [] then some (encodeNaps m) else none

/-- The text held under the storage key, as `JSON.parse` sees it: either
text that `JSON.parse` rejects with an exception, or text that parses to
the given JSON value. -/
inductive StoredText where
  | invalid : StoredText
  | valid : Json → StoredText

/-- The value the `activeNaps` state cell holds after the mount effect: a
value of the declared `Record<string, ActiveNap>` shape, or — because the
`as` cast validates nothing — an arbitrary parsed JSON value installed
as-is. -/
inductive NapsCell where
  | record : NapMap → NapsCell
  | raw : Json → NapsCell

/-- The `loadPersistedNaps` startup routine.  Its input is the outcome of
`AsyncStorage.getItem`: a thrown read error (`Except.error`), a missing key
(`Except.ok none`), or the stored text.  A read error and unparseable text
are caught and leave the initial empty state, as does a missing key.  Text
that parses is installed unvalidated (`JSON.parse(stored) as
Record<string, ActiveNap>` followed by `setActiveNaps(parsed)`); the
installed value is `NapsCell.record m` precisely when it is the JSON image
of the session record `m` (the decoder accepts exactly the shapes the
encoder emits), and `NapsCell.raw` garbage otherwise. -/
def loadPersistedNaps : Except Unit (Option StoredText) → NapsCell
  | .error _ => .record []
  | .ok none => .record []
  | .ok (some .invalid) => .record []
  | .ok (some (.valid j)) =>
      match decodeNaps j with
      | some m => .record m
      | none => .raw j

/-- The `updateNotification` effect body: with at least one active nap the
notification shows the first nap (name, gender, elapsed seconds computed
from its start time at the moment the effect runs); with none it is
dismissed. -/
def updateNotification (now : Int) : NapMap → Option NotifContent
  | [] => none
  | (_, nap) :: _ =>
      some ⟨nap.babyName, nap.babyGender, Int.fdiv (now - nap.startTime) 1000⟩

/-! ### The provider state and the callbacks -/

/-- The observable state of one `NapProvider` turn: the in-memory record,
the durable store content, the current system notification, and whether the
`[activeNaps]`-keyed effects are scheduled but not yet run. -/
structure ProviderState where
  activeNaps : NapMap
  store : Option Json
  notif : Option NotifContent
  pendingEffects : Bool
deriving Repr

/-- The state after mount with nothing persisted. -/
def initState : ProviderState :=
  { activeNaps := [], store := none, notif := none, pendingEffects := false }

/-- A `setActiveNaps` call with a functional updater.  `none` models the
updater returning `prev` itself (same reference: React bails out and the
effects stay as they were); `some m` models a newly built object, which
re-renders and schedules the persistence and notification effects. -/
def setActiveNaps (upd : NapMap → Option NapMap) (s : ProviderState) :
    ProviderState :=
  match upd s.activeNaps with
  | none => s
  | some m => { s with activeNaps := m, pendingEffects := true }

/-- The updater inside `startNap`: return `prev` untouched when the baby is
already napping, otherwise spread-add a fresh session with `startTime = now`
and empty notes. -/
def startNapUpd (b : Baby) (now : Int) (m : NapMap) : Option NapMap :=
  if (lookupNap m b.id).isSome then none
  else some (m ++ [(b.id, ⟨b.id, b.name, b.gender, now, ""⟩)])

/-- The `startNap` callback: runs its updater and returns nothing. -/
def startNap (b : Baby) (now : Int) (s : ProviderState) : ProviderState :=
  setActiveNaps (startNapUpd b now) s

/-- The pure map produced by `startNap`, for map-level statements. -/
def startNapMap (b : Baby) (now : Int) (m : NapMap) : NapMap :=
  (startNapUpd b now m).getD m

/-- The `stopNap` callback: reads the nap from current state; when absent
it returns `null` without touching state; when present it builds the
result, removes the entry, and returns the result. -/
def stopNap (babyId : String) (now : Int) (s : ProviderState) :
    Option FinalizedNap × ProviderState :=
  match lookupNap s.activeNaps babyId with
  | none => (none, s)
  | some nap =>
      let result : FinalizedNap :=
        ⟨nap.startTime, now, Int.fdiv (now - nap.startTime) 1000, nap.notes⟩
      (some result, setActiveNaps (fun m => some (eraseNap m babyId)) s)

/-- The `stopFirstActiveNap` callback: takes `Object.keys(activeNaps)[0]`
and delegates to `stopNap`, pairing the result with the baby id. -/
def stopFirstActiveNap (now : Int) (s : ProviderState) :
    Option (String × FinalizedNap) × ProviderState :=
  match napKeys s.activeNaps with
  | [] => (none, s)
  | babyId :: _ =>
      match stopNap babyId now s with
      | (some r, s2) => (some (babyId, r), s2)
      | (none, s2) => (none, s2)

/-- The updater inside `updateNotes`: return `prev` untouched when the baby
has no active nap, otherwise spread-replace only the `notes` field of that
entry. -/
def updateNotesUpd (babyId notes : String) (m : NapMap) : Option NapMap :=
  match lookupNap m babyId with
  | none => none
  | some _ =>
      some (List.map
        (fun p => if p.1 = babyId then (p.1, { p.2 with notes := notes }) else p)
        m)

/-- The `updateNotes` callback. -/
def updateNotes (babyId notes : String) (s : ProviderState) : ProviderState :=
  setActiveNaps (updateNotesUpd babyId notes) s

/-- The `getElapsedSeconds` accessor: recomputed from the stored
`startTime` on every call, `0` when the baby has no active nap. -/
def getElapsedSeconds (babyId : String) (now : Int) (m : NapMap) : Int :=
  match lookupNap m babyId with
  | none => 0
  | some nap => Int.fdiv (now - nap.startTime) 1000

def isNapping (babyId : String) (m : NapMap) : Bool :=
  (lookupNap m babyId).isSome

def hasAnyActiveNap (m : NapMap) : Bool :=
  napKeys m ≠ []

/-- Running the two `[activeNaps, isLoading]`-keyed effects (persistence
and notification refresh) after a commit; a no-op when nothing was
scheduled. -/
def flushEffects (now : Int) (s : ProviderState) : ProviderState :=
  if s.pendingEffects then
    { activeNaps := s.activeNaps,
      store := persistNaps s.activeNaps,
      notif := updateNotification now s.activeNaps,
      pendingEffects := false }
  else s

/-! ### Operation sequences, for the per-id uniqueness invariant -/

/-- One externally triggered lifecycle operation. -/
inductive NapOp where
  | start : Baby → Int → NapOp
  | stop : String → Int → NapOp

/-- Running one operation against the in-memory map (the map component of
the corresponding callback). -/
def execOp (m : NapMap) : NapOp → NapMap
  | .start b now => startNapMap b now m
  | .stop babyId _ =>
      match lookupNap m babyId with
      | none => m
      | some _ => eraseNap m babyId

def execOps (ops : List NapOp) (m : NapMap) : NapMap :=
  List.foldl execOp m ops

/-! ### Basic lemmas about the map operations -/

@[simp] theorem lookupNap_nil (i : String) : lookupNap [] i = none := rfl

@[simp] theorem lookupNap_cons (k : String) (n : ActiveNap) (rest : NapMap)
    (i : String) :
    lookupNap ((k, n) :: rest) i = if k = i then some n else lookupNap rest i :=
  rfl

@[simp] theorem napKeys_nil : napKeys [] = [] := rfl

@[simp] theorem napKeys_cons (k : String) (n : ActiveNap) (rest : NapMap) :
    napKeys ((k, n) :: rest) = k :: napKeys rest := rfl

theorem lookupNap_eq_none_iff (m : NapMap) (i : String) :
    lookupNap m i = none ↔ i ∉ napKeys m := by
  induction m with
  | nil => simp
  | cons p rest ih =>
    obtain ⟨k, n⟩ := p
    by_cases hk : k = i
    · simp [hk]
    · have hik : ¬ i = k := fun h2 => hk h2.symm
      simp [hk, hik, ih]

theorem lookupNap_append_self (m : NapMap) (i : String) (n : ActiveNap)
    (h : lookupNap m i = none) : lookupNap (m ++ [(i, n)]) i = some n := by
  induction m with
  | nil => simp
  | cons p rest ih =>
    obtain ⟨k, v⟩ := p
    by_cases hk : k = i
    · simp [hk] at h
    · rw [lookupNap_cons, if_neg hk] at h
      rw [List.cons_append, lookupNap_cons, if_neg hk]
      exact ih h

theorem lookupNap_append_other (m : NapMap) (i k : String) (n : ActiveNap)
    (h : k ≠ i) : lookupNap (m ++ [(i, n)]) k = lookupNap m k := by
  induction m with
  | nil =>
    have hik : ¬ i = k := fun h2 => h h2.symm
    simp [hik]
  | cons p rest ih =>
    obtain ⟨a, v⟩ := p
    by_cases ha : a = k <;> simp [ha, ih]

theorem lookupNap_eraseNap (m : NapMap) (i k : String) :
    lookupNap (eraseNap m i) k = if k = i then none else lookupNap m k := by
  induction m with
  | nil => simp [eraseNap]
  | cons p rest ih =>
    obtain ⟨a, v⟩ := p
    by_cases hk : k = i
    · subst hk
      by_cases ha : a = k
      · simpa [eraseNap, ha] using ih
      · simp [eraseNap, ha, ih]
    · by_cases ha : a = i
      · have hak : ¬ a = k := fun h2 => hk (h2.symm.trans ha)
        have hik : ¬ i = k := fun h2 => hak (ha.trans h2)
        simp [eraseNap, ha, hak, hik, ih, hk]
      · by_cases hak : a = k
        · simp [eraseNap, ha, hak, hk]
        · simp [eraseNap, ha, hak, ih, hk]

theorem napKeys_eraseNap_sublist (m : NapMap) (i : String) :
    List.Sublist (napKeys (eraseNap m i)) (napKeys m) := by
  induction m with
  | nil => simp [eraseNap]
  | cons p rest ih =>
    obtain ⟨a, v⟩ := p
    by_cases ha : a = i
    · simp only [eraseNap, if_pos ha, napKeys_cons]
      exact ih.cons a
    · simp only [eraseNap, if_neg ha, napKeys_cons]
      exact ih.cons₂ a

theorem lookupNap_updMap (m : NapMap) (i notes2 k : String) :
    lookupNap
      (List.map
        (fun p => if p.1 = i then (p.1, { p.2 with notes := notes2 }) else p) m)
      k =
    if k = i then
      Option.map (fun nap => { nap with notes := notes2 }) (lookupNap m i)
    else lookupNap m k := by
  induction m with
  | nil => simp
  | cons p rest ih =>
    obtain ⟨a, v⟩ := p
    by_cases ha : a = i
    · by_cases hk : k = i
      · subst hk
        simp [ha, ih]
      · have hik : ¬ i = k := fun h2 => hk h2.symm
        simp [ha, hik, hk, ih]
    · by_cases hak : a = k
      · have hk : ¬ k = i := fun h2 => ha (by rw [hak]; exact h2)
        simp [ha, hak, hk]
      · simp [ha, hak, ih]

/-! ### Serialization round trip -/

@[simp] theorem decodeGender_encodeGender (g : Gender) :
    decodeGender (encodeGender g) = some g := by
  cases g <;> rfl

@[simp] theorem decodeNap_encodeNap (n : ActiveNap) :
    decodeNap (encodeNap n) = some n := by
  obtain ⟨i, nm, g, t, no⟩ := n
  cases g <;> rfl

theorem decodeEntries_encode (m : NapMap) :
    decodeEntries (List.map (fun p => (p.1, encodeNap p.2)) m) = some m := by
  induction m with
  | nil => rfl
  | cons p rest ih =>
    obtain ⟨k, v⟩ := p
    simp [decodeEntries, ih]

@[simp] theorem decodeNaps_encodeNaps (m : NapMap) :
    decodeNaps (encodeNaps m) = some m := by
  simp [decodeNaps, encodeNaps, decodeEntries_encode]

@[simp] theorem loadPersistedNaps_persistNaps (m : NapMap) :
    loadPersistedNaps (.ok (Option.map StoredText.valid (persistNaps m))) =
      NapsCell.record m := by
  cases m with
  | nil => rfl
  | cons p rest =>
    obtain ⟨k, v⟩ := p
    simp [persistNaps, loadPersistedNaps]

@[simp] theorem napKeys_append (m m2 : NapMap) :
    napKeys (m ++ m2) = napKeys m ++ napKeys m2 := by
  simp [napKeys]

theorem startNapMap_of_absent (b : Baby) (now : Int) (m : NapMap)
    (h : lookupNap m b.id = none) :
    startNapMap b now m = m ++ [(b.id, ⟨b.id, b.name, b.gender, now, ""⟩)] := by
  simp [startNapMap, startNapUpd, h]

theorem startNapMap_of_present (b : Baby) (now : Int) (m : NapMap)
    (h : (lookupNap m b.id).isSome) : startNapMap b now m = m := by
  simp [startNapMap, startNapUpd, h]

theorem nodup_execOp (m : NapMap) (op : NapOp)
    (h : (napKeys m).Nodup) : (napKeys (execOp m op)).Nodup := by
  cases op with
  | start b now =>
    cases hl : lookupNap m b.id with
    | some nap =>
      rw [execOp, startNapMap_of_present b now m (by simp [hl])]
      exact h
    | none =>
      have hmem : b.id ∉ napKeys m := (lookupNap_eq_none_iff m b.id).1 hl
      rw [execOp, startNapMap_of_absent b now m hl, napKeys_append]
      rw [List.nodup_append]
      refine ⟨h, by simp, ?_⟩
      intro a ha hab
      have hae : a = b.id := by simpa [napKeys] using hab
      exact hmem (hae ▸ ha)
  | stop babyId t =>
    cases hl : lookupNap m babyId with
    | none => simpa [execOp, hl] using h
    | some nap =>
      simp only [execOp, hl]
      exact (napKeys_eraseNap_sublist m babyId).nodup h

/-! ### Claim theorems -/

/-- C1: for every active session started at time S, `getElapsedSeconds`
queried at time T returns `floor((T - S)/1000)`, recomputed from the stored
`startTime` (the state carries no cached counter), and a persist/restore
round trip installs the identical session record, so the same value is
returned right after a restore or an arbitrarily long suspension. -/
theorem getElapsedSeconds_driftFree (m : NapMap) (babyId : String)
    (nap : ActiveNap) (T : Int) (h : lookupNap m babyId = some nap) :
    getElapsedSeconds babyId T m = Int.fdiv (T - nap.startTime) 1000 ∧
    loadPersistedNaps (.ok (Option.map StoredText.valid (persistNaps m))) =
      NapsCell.record m := by
  constructor
  · simp [getElapsedSeconds, h]
  · exact loadPersistedNaps_persistNaps m

theorem getElapsedSeconds_driftFree_witness :
    getElapsedSeconds "baby1" 126000
        [("baby1", ⟨"baby1", "Ana", Gender.feminino, 1000, ""⟩)] =
      Int.fdiv (126000 - 1000) 1000 ∧
    loadPersistedNaps (.ok (Option.map StoredText.valid (persistNaps
        [("baby1", ⟨"baby1", "Ana", Gender.feminino, 1000, ""⟩)]))) =
      NapsCell.record [("baby1", ⟨"baby1", "Ana", Gender.feminino, 1000, ""⟩)] :=
  getElapsedSeconds_driftFree
    [("baby1", ⟨"baby1", "Ana", Gender.feminino, 1000, ""⟩)] "baby1"
    ⟨"baby1", "Ana", Gender.feminino, 1000, ""⟩ 126000 (by simp)

/-- C2: the active map holds at most one session per subject id along every
sequence of start and stop operations; a start for an already-active subject
returns the state unchanged (same session, same notes, no effects
scheduled); a start for an inactive subject appends exactly one new session
with `startTime = now` and empty notes, and touches no other subject. -/
theorem startNap_uniqueness_invariant :
    (∀ ops : List NapOp, (napKeys (execOps ops [])).Nodup) ∧
    (∀ (b : Baby) (now : Int) (s : ProviderState),
        (lookupNap s.activeNaps b.id).isSome → startNap b now s = s) ∧
    (∀ (b : Baby) (now : Int) (m : NapMap), lookupNap m b.id = none →
        lookupNap (startNapMap b now m) b.id =
          some ⟨b.id, b.name, b.gender, now, ""⟩ ∧
        napKeys (startNapMap b now m) = napKeys m ++ [b.id] ∧
        ∀ k, k ≠ b.id → lookupNap (startNapMap b now m) k = lookupNap m k) := by
  refine ⟨?_, ?_, ?_⟩
  · intro ops
    have hall : ∀ m : NapMap, (napKeys m).Nodup →
        (napKeys (execOps ops m)).Nodup := by
      induction ops with
      | nil => intro m h; exact h
      | cons op rest ih => intro m h; exact ih _ (nodup_execOp m op h)
    exact hall [] (by simp)
  · intro b now s h
    simp [startNap, setActiveNaps, startNapUpd, h]
  · intro b now m h
    rw [startNapMap_of_absent b now m h]
    refine ⟨lookupNap_append_self m b.id _ h, by simp, ?_⟩
    intro k hk
    exact lookupNap_append_other m b.id k _ hk

theorem startNap_uniqueness_invariant_witness :
    (napKeys (execOps
        [NapOp.start ⟨"a", "Ana", Gender.feminino⟩ 0,
         NapOp.start ⟨"b", "Bento", Gender.masculino⟩ 5000,
         NapOp.stop "a" 9000] [])).Nodup ∧
    startNap ⟨"a", "Ana", Gender.feminino⟩ 7000
        { activeNaps := [("a", ⟨"a", "Ana", Gender.feminino, 0, ""⟩)],
          store := none, notif := none, pendingEffects := false } =
      { activeNaps := [("a", ⟨"a", "Ana", Gender.feminino, 0, ""⟩)],
        store := none, notif := none, pendingEffects := false } ∧
    lookupNap
        (startNapMap ⟨"b", "Bento", Gender.masculino⟩ 5000
          [("a", ⟨"a", "Ana", Gender.feminino, 0, ""⟩)]) "b" =
      some ⟨"b", "Bento", Gender.masculino, 5000, ""⟩ ∧
    lookupNap
        (startNapMap ⟨"b", "Bento", Gender.masculino⟩ 5000
          [("a", ⟨"a", "Ana", Gender.feminino, 0, ""⟩)]) "a" =
      lookupNap [("a", ⟨"a", "Ana", Gender.feminino, 0, ""⟩)] "a" :=
  ⟨startNap_uniqueness_invariant.1 _,
   startNap_uniqueness_invariant.2.1 _ 7000 _ rfl,
   (startNap_uniqueness_invariant.2.2 ⟨"b", "Bento", Gender.masculino⟩ 5000
      [("a", ⟨"a", "Ana", Gender.feminino, 0, ""⟩)] rfl).1,
   (startNap_uniqueness_invariant.2.2 ⟨"b", "Bento", Gender.masculino⟩ 5000
      [("a", ⟨"a", "Ana", Gender.feminino, 0, ""⟩)] rfl).2.2 "a" (by decide)⟩

/-- C3: starting a session for A, setting its notes to `x`, serializing the
map to the durable store and restoring from it installs the identical map,
a record whose session for A has notes `x` and the original `startTime`. -/
theorem persist_restore_roundTrip (b : Baby) (t0 : Int) (x : String) :
    loadPersistedNaps (.ok (Option.map StoredText.valid (persistNaps
        (updateNotes b.id x (startNap b t0 initState)).activeNaps))) =
      NapsCell.record
        (updateNotes b.id x (startNap b t0 initState)).activeNaps ∧
    lookupNap (updateNotes b.id x (startNap b t0 initState)).activeNaps
      b.id = some ⟨b.id, b.name, b.gender, t0, x⟩ := by
  have h1 : (startNap b t0 initState).activeNaps =
      [(b.id, ⟨b.id, b.name, b.gender, t0, ""⟩)] := by
    simp [startNap, setActiveNaps, startNapUpd, initState]
  have h2 : (updateNotes b.id x (startNap b t0 initState)).activeNaps =
      [(b.id, ⟨b.id, b.name, b.gender, t0, x⟩)] := by
    simp [updateNotes, setActiveNaps, updateNotesUpd, h1]
  constructor
  · exact loadPersistedNaps_persistNaps _
  · rw [h2]
    simp

/-- C4: a successful stop returns a result with
`elapsedSeconds = floor((now - startTime)/1000)` and the session's current
notes, removes the session from the active map, and after the scheduled
effects run the store holds the reduced map (or is cleared when the map
became empty) and the notification is recomputed for the reduced map
(dismissed when it is empty). -/
theorem stopNap_success (s : ProviderState) (babyId : String)
    (nap : ActiveNap) (now : Int)
    (h : lookupNap s.activeNaps babyId = some nap) :
    (stopNap babyId now s).1 =
      some ⟨nap.startTime, now, Int.fdiv (now - nap.startTime) 1000,
            nap.notes⟩ ∧
    (stopNap babyId now s).2.activeNaps = eraseNap s.activeNaps babyId ∧
    lookupNap (stopNap babyId now s).2.activeNaps babyId = none ∧
    (flushEffects now (stopNap babyId now s).2).store =
      (if napKeys (eraseNap s.activeNaps babyId) = [] then none
       else some (encodeNaps (eraseNap s.activeNaps babyId))) ∧
    (flushEffects now (stopNap babyId now s).2).notif =
      updateNotification now (eraseNap s.activeNaps babyId) := by
  have hs : stopNap babyId now s =
      (some ⟨nap.startTime, now, Int.fdiv (now - nap.startTime) 1000,
             nap.notes⟩,
       { s with activeNaps := eraseNap s.activeNaps babyId,
                pendingEffects := true }) := by
    simp [stopNap, h, setActiveNaps]
  rw [hs]
  refine ⟨rfl, rfl, ?_, ?_, ?_⟩
  · rw [lookupNap_eraseNap]
    simp
  · simp [flushEffects, persistNaps, ite_not]
  · simp [flushEffects]

theorem stopNap_success_witness :
    getElapsedSeconds "baby1" 125000
        [("baby1", ⟨"baby1", "Ana", Gender.feminino, 0, ""⟩)] = 125 ∧
    ((stopNap "baby1" 125000
        { activeNaps := [("baby1", ⟨"baby1", "Ana", Gender.feminino, 0, ""⟩)],
          store := some (encodeNaps
            [("baby1", ⟨"baby1", "Ana", Gender.feminino, 0, ""⟩)]),
          notif := none, pendingEffects := false }).1 =
      some ⟨0, 125000, Int.fdiv (125000 - 0) 1000, ""⟩ ∧
     (stopNap "baby1" 125000
        { activeNaps := [("baby1", ⟨"baby1", "Ana", Gender.feminino, 0, ""⟩)],
          store := some (encodeNaps
            [("baby1", ⟨"baby1", "Ana", Gender.feminino, 0, ""⟩)]),
          notif := none, pendingEffects := false }).2.activeNaps =
      eraseNap [("baby1", ⟨"baby1", "Ana", Gender.feminino, 0, ""⟩)] "baby1" ∧
     lookupNap (stopNap "baby1" 125000
        { activeNaps := [("baby1", ⟨"baby1", "Ana", Gender.feminino, 0, ""⟩)],
          store := some (encodeNaps
            [("baby1", ⟨"baby1", "Ana", Gender.feminino, 0, ""⟩)]),
          notif := none, pendingEffects := false }).2.activeNaps "baby1" =
      none ∧
     (flushEffects 125000 (stopNap "baby1" 125000
        { activeNaps := [("baby1", ⟨"baby1", "Ana", Gender.feminino, 0, ""⟩)],
          store := some (encodeNaps
            [("baby1", ⟨"baby1", "Ana", Gender.feminino, 0, ""⟩)]),
          notif := none, pendingEffects := false }).2).store =
      (if napKeys (eraseNap
            [("baby1", ⟨"baby1", "Ana", Gender.feminino, 0, ""⟩)] "baby1") = []
       then none
       else some (encodeNaps (eraseNap
            [("baby1", ⟨"baby1", "Ana", Gender.feminino, 0, ""⟩)] "baby1"))) ∧
     (flushEffects 125000 (stopNap "baby1" 125000
        { activeNaps := [("baby1", ⟨"baby1", "Ana", Gender.feminino, 0, ""⟩)],
          store := some (encodeNaps
            [("baby1", ⟨"baby1", "Ana", Gender.feminino, 0, ""⟩)]),
          notif := none, pendingEffects := false }).2).notif =
      updateNotification 125000 (eraseNap
        [("baby1", ⟨"baby1", "Ana", Gender.feminino, 0, ""⟩)] "baby1")) :=
  ⟨by simp [getElapsedSeconds],
   stopNap_success _ "baby1" ⟨"baby1", "Ana", Gender.feminino, 0, ""⟩ 125000
     (by simp)⟩

/-- C5: stopping a subject with no active session returns a null result and
leaves the whole provider state (map, store, notification, scheduled
effects) untouched; consequently a second stop of the same subject after a
successful one is a safe no-op that does not re-finalize it. -/
theorem stopNap_absent_noop (s : ProviderState) (babyId : String)
    (now : Int) :
    (lookupNap s.activeNaps babyId = none → stopNap babyId now s = (none, s)) ∧
    (∀ nap now2 t, lookupNap s.activeNaps babyId = some nap →
        stopNap babyId now2 (flushEffects t (stopNap babyId now s).2) =
          (none, flushEffects t (stopNap babyId now s).2)) := by
  constructor
  · intro h
    simp [stopNap, h]
  · intro nap now2 t h
    have h2 : (stopNap babyId now s).2.activeNaps =
        eraseNap s.activeNaps babyId := by
      simp [stopNap, h, setActiveNaps]
    have h3 : (flushEffects t (stopNap babyId now s).2).activeNaps =
        eraseNap s.activeNaps babyId := by
      by_cases hp : (stopNap babyId now s).2.pendingEffects <;>
        simp [flushEffects, hp, h2]
    have h4 : lookupNap
        (flushEffects t (stopNap babyId now s).2).activeNaps babyId = none := by
      rw [h3, lookupNap_eraseNap]
      simp
    set s3 := flushEffects t (stopNap babyId now s).2 with hs3
    simp [stopNap, h4]

theorem stopNap_absent_noop_witness :
    stopNap "zz" 5000
        { activeNaps := [("b", ⟨"b", "Bento", Gender.masculino, 2000, "n"⟩)],
          store := none, notif := none, pendingEffects := false } =
      (none,
       { activeNaps := [("b", ⟨"b", "Bento", Gender.masculino, 2000, "n"⟩)],
         store := none, notif := none, pendingEffects := false }) ∧
    stopNap "b" 9000 (flushEffects 8000 (stopNap "b" 7000
        { activeNaps := [("b", ⟨"b", "Bento", Gender.masculino, 2000, "n"⟩)],
          store := none, notif := none, pendingEffects := false }).2) =
      (none, flushEffects 8000 (stopNap "b" 7000
        { activeNaps := [("b", ⟨"b", "Bento", Gender.masculino, 2000, "n"⟩)],
          store := none, notif := none, pendingEffects := false }).2) :=
  ⟨(stopNap_absent_noop
      { activeNaps := [("b", ⟨"b", "Bento", Gender.masculino, 2000, "n"⟩)],
        store := none, notif := none, pendingEffects := false } "zz" 5000).1
      (by simp),
   (stopNap_absent_noop
      { activeNaps := [("b", ⟨"b", "Bento", Gender.masculino, 2000, "n"⟩)],
        store := none, notif := none, pendingEffects := false } "b" 7000).2
      ⟨"b", "Bento", Gender.masculino, 2000, "n"⟩ 9000 8000 (by simp)⟩

/-- C6: `stopFirstActiveNap` returns null when no session is active;
otherwise it stops exactly the first (insertion-earliest) key of the active
map, delegating to `stopNap`; with two active sessions where A was inserted
before B it finalizes A with A's data, leaves B's session active and
unchanged, and the next notification refresh references B. -/
theorem stopFirstActiveNap_primary (s : ProviderState) (now t : Int) :
    (s.activeNaps = [] → stopFirstActiveNap now s = (none, s)) ∧
    (∀ a napA rest, s.activeNaps = (a, napA) :: rest →
        (stopFirstActiveNap now s).1 =
          some (a, ⟨napA.startTime, now,
                    Int.fdiv (now - napA.startTime) 1000, napA.notes⟩)) ∧
    (∀ a b napA napB, s.activeNaps = [(a, napA), (b, napB)] → a ≠ b →
        (stopFirstActiveNap now s).2.activeNaps = [(b, napB)] ∧
        (flushEffects t (stopFirstActiveNap now s).2).notif =
          some ⟨napB.babyName, napB.babyGender,
                Int.fdiv (t - napB.startTime) 1000⟩) := by
  refine ⟨?_, ?_, ?_⟩
  · intro h
    simp [stopFirstActiveNap, h, napKeys]
  · intro a napA rest h
    simp [stopFirstActiveNap, h, napKeys, stopNap, setActiveNaps]
  · intro a b napA napB h hab
    have hba : ¬ b = a := fun h2 => hab h2.symm
    constructor
    · simp [stopFirstActiveNap, h, napKeys, stopNap, setActiveNaps,
            eraseNap, hba]
    · simp [stopFirstActiveNap, h, napKeys, stopNap, setActiveNaps,
            eraseNap, hba, flushEffects, updateNotification]

theorem stopFirstActiveNap_primary_witness :
    stopFirstActiveNap 5000 initState = (none, initState) ∧
    (stopFirstActiveNap 5000
        { activeNaps :=
            [("a", ⟨"a", "Ana", Gender.feminino, 1000, "na"⟩),
             ("b", ⟨"b", "Bento", Gender.masculino, 2000, "nb"⟩)],
          store := none, notif := none, pendingEffects := false }).1 =
      some ("a", ⟨1000, 5000, Int.fdiv (5000 - 1000) 1000, "na"⟩) ∧
    (stopFirstActiveNap 5000
        { activeNaps :=
            [("a", ⟨"a", "Ana", Gender.feminino, 1000, "na"⟩),
             ("b", ⟨"b", "Bento", Gender.masculino, 2000, "nb"⟩)],
          store := none, notif := none, pendingEffects := false }).2.activeNaps =
      [("b", ⟨"b", "Bento", Gender.masculino, 2000, "nb"⟩)] ∧
    (flushEffects 6000 (stopFirstActiveNap 5000
        { activeNaps :=
            [("a", ⟨"a", "Ana", Gender.feminino, 1000, "na"⟩),
             ("b", ⟨"b", "Bento", Gender.masculino, 2000, "nb"⟩)],
          store := none, notif := none, pendingEffects := false }).2).notif =
      some ⟨"Bento", Gender.masculino, Int.fdiv (6000 - 2000) 1000⟩ :=
  ⟨(stopFirstActiveNap_primary initState 5000 6000).1 rfl,
   (stopFirstActiveNap_primary _ 5000 6000).2.1 "a"
     ⟨"a", "Ana", Gender.feminino, 1000, "na"⟩
     [("b", ⟨"b", "Bento", Gender.masculino, 2000, "nb"⟩)] rfl,
   ((stopFirstActiveNap_primary _ 5000 6000).2.2 "a" "b"
     ⟨"a", "Ana", Gender.feminino, 1000, "na"⟩
     ⟨"b", "Bento", Gender.masculino, 2000, "nb"⟩ rfl (by decide)).1,
   ((stopFirstActiveNap_primary _ 5000 6000).2.2 "a" "b"
     ⟨"a", "Ana", Gender.feminino, 1000, "na"⟩
     ⟨"b", "Bento", Gender.masculino, 2000, "nb"⟩ rfl (by decide)).2⟩

/-- C7 as stated fails on the code: `startNap` only schedules the state
update and returns; at the moment it returns the in-memory map already
holds the new session while the persistence effect is still pending and the
durable store does not reflect the mutation. -/
theorem startNap_returns_before_persist :
    (startNap ⟨"baby1", "Ana", Gender.feminino⟩ 1000 initState).activeNaps =
      [("baby1", ⟨"baby1", "Ana", Gender.feminino, 1000, ""⟩)] ∧
    (startNap ⟨"baby1", "Ana", Gender.feminino⟩ 1000 initState).store =
      none ∧
    (startNap ⟨"baby1", "Ana", Gender.feminino⟩ 1000
        initState).pendingEffects = true ∧
    ¬ ((startNap ⟨"baby1", "Ana", Gender.feminino⟩ 1000 initState).store =
        persistNaps (startNap ⟨"baby1", "Ana", Gender.feminino⟩ 1000
          initState).activeNaps) := by
  refine ⟨?_, ?_, ?_, ?_⟩ <;>
    simp [startNap, setActiveNaps, startNapUpd, initState, persistNaps]

/-- C7 amended: the persistence write is deferred to an effect that runs
after the mutating call returns; provided the store reflected the map
before the call, it reflects the post-mutation map again once the scheduled
effects have run, for each of the three mutating operations. -/
theorem persist_effect_after_return (s : ProviderState)
    (h : loadPersistedNaps (.ok (Option.map StoredText.valid s.store)) =
      NapsCell.record s.activeNaps) :
    (∀ (b : Baby) (now t : Int),
        loadPersistedNaps (.ok (Option.map StoredText.valid
            ((flushEffects t (startNap b now s)).store))) =
          NapsCell.record (flushEffects t (startNap b now s)).activeNaps) ∧
    (∀ (babyId : String) (now t : Int),
        loadPersistedNaps (.ok (Option.map StoredText.valid
            ((flushEffects t (stopNap babyId now s).2).store))) =
          NapsCell.record
            (flushEffects t (stopNap babyId now s).2).activeNaps) ∧
    (∀ (babyId x : String) (t : Int),
        loadPersistedNaps (.ok (Option.map StoredText.valid
            ((flushEffects t (updateNotes babyId x s)).store))) =
          NapsCell.record
            (flushEffects t (updateNotes babyId x s)).activeNaps) := by
  have key : ∀ (t : Int) (s2 : ProviderState),
      (s2.pendingEffects = false →
        loadPersistedNaps (.ok (Option.map StoredText.valid s2.store)) =
          NapsCell.record s2.activeNaps) →
      loadPersistedNaps (.ok (Option.map StoredText.valid
          ((flushEffects t s2).store))) =
        NapsCell.record (flushEffects t s2).activeNaps := by
    intro t s2 h2
    by_cases hp : s2.pendingEffects
    · simp [flushEffects, hp]
    · simp only [flushEffects, hp, if_neg]
      simp only [Bool.not_eq_true] at hp
      exact h2 hp
  have fromUpd : ∀ (upd : NapMap → Option NapMap) (t : Int),
      loadPersistedNaps (.ok (Option.map StoredText.valid
          ((flushEffects t (setActiveNaps upd s)).store))) =
        NapsCell.record (flushEffects t (setActiveNaps upd s)).activeNaps := by
    intro upd t
    apply key
    intro hp
    unfold setActiveNaps at hp ⊢
    cases hu : upd s.activeNaps with
    | none =>
      simp only [hu]
      exact h
    | some m =>
      rw [hu] at hp
      simp at hp
  refine ⟨?_, ?_, ?_⟩
  · intro b now t
    exact fromUpd (startNapUpd b now) t
  · intro babyId now t
    cases hl : lookupNap s.activeNaps babyId with
    | none =>
      simp only [stopNap, hl]
      exact key t s (fun _ => h)
    | some nap =>
      simp only [stopNap, hl]
      exact fromUpd (fun m => some (eraseNap m babyId)) t
  · intro babyId x t
    exact fromUpd (updateNotesUpd babyId x) t

theorem persist_effect_after_return_witness :
    loadPersistedNaps (.ok (Option.map StoredText.valid
        ((flushEffects 2000 (startNap
          ⟨"baby1", "Ana", Gender.feminino⟩ 1000 initState)).store))) =
      NapsCell.record (flushEffects 2000 (startNap
        ⟨"baby1", "Ana", Gender.feminino⟩ 1000 initState)).activeNaps :=
  (persist_effect_after_return initState rfl).1
    ⟨"baby1", "Ana", Gender.feminino⟩ 1000 2000

/-- C8 as stated fails on the code: a stored value that parses as JSON but
is not a session record — here the JSON string produced by the text
`"garbage"` — is installed as the state by the unvalidated cast instead of
resetting the map to empty. -/
theorem loadPersistedNaps_installs_unvalidated :
    loadPersistedNaps
        (.ok (some (StoredText.valid (Json.jstr "garbage")))) =
      NapsCell.raw (Json.jstr "garbage") ∧
    loadPersistedNaps
        (.ok (some (StoredText.valid (Json.jstr "garbage")))) ≠
      NapsCell.record [] := by
  constructor
  · rfl
  · intro h
    have h2 : NapsCell.raw (Json.jstr "garbage") = NapsCell.record [] := h
    exact NapsCell.noConfusion h2

/-- C8 amended: restore never fails startup — a read error, a missing
stored value, and stored text that `JSON.parse` rejects all initialize the
map to empty — but stored text that parses to a value which is not a
session record is installed as the state unvalidated, not reset to empty;
a successfully recovered session of arbitrary age is restored intact, its
elapsed time still derived from its original `startTime`. -/
theorem loadPersistedNaps_lenient :
    (∀ e : Unit, loadPersistedNaps (.error e) = NapsCell.record []) ∧
    loadPersistedNaps (.ok none) = NapsCell.record [] ∧
    loadPersistedNaps (.ok (some .invalid)) = NapsCell.record [] ∧
    (∀ j : Json, decodeNaps j = none →
        loadPersistedNaps (.ok (some (.valid j))) = NapsCell.raw j) ∧
    (∀ (m : NapMap) (babyId : String) (nap : ActiveNap) (now : Int),
        lookupNap m babyId = some nap →
        loadPersistedNaps
            (.ok (Option.map StoredText.valid (persistNaps m))) =
          NapsCell.record m ∧
        getElapsedSeconds babyId now m =
          Int.fdiv (now - nap.startTime) 1000) := by
  refine ⟨fun e => rfl, rfl, rfl, ?_, ?_⟩
  · intro j hj
    simp [loadPersistedNaps, hj]
  · intro m babyId nap now h
    exact ⟨loadPersistedNaps_persistNaps m, by simp [getElapsedSeconds, h]⟩

theorem loadPersistedNaps_lenient_witness :
    loadPersistedNaps (.ok (some (StoredText.valid (Json.jstr "oops")))) =
      NapsCell.raw (Json.jstr "oops") ∧
    loadPersistedNaps (.ok (Option.map StoredText.valid (persistNaps
        [("a", ⟨"a", "Ana", Gender.feminino, 0, "n"⟩)]))) =
      NapsCell.record [("a", ⟨"a", "Ana", Gender.feminino, 0, "n"⟩)] ∧
    getElapsedSeconds "a" 1000000000000
        [("a", ⟨"a", "Ana", Gender.feminino, 0, "n"⟩)] =
      Int.fdiv (1000000000000 - 0) 1000 :=
  ⟨loadPersistedNaps_lenient.2.2.2.1 (Json.jstr "oops") rfl,
   (loadPersistedNaps_lenient.2.2.2.2
      [("a", ⟨"a", "Ana", Gender.feminino, 0, "n"⟩)] "a"
      ⟨"a", "Ana", Gender.feminino, 0, "n"⟩ 1000000000000 (by simp)).1,
   (loadPersistedNaps_lenient.2.2.2.2
      [("a", ⟨"a", "Ana", Gender.feminino, 0, "n"⟩)] "a"
      ⟨"a", "Ana", Gender.feminino, 0, "n"⟩ 1000000000000 (by simp)).2⟩

/-- C9: elapsed time is not clamped below zero — when the queried time lies
before the stored `startTime`, `getElapsedSeconds` returns a negative
integer and a stop returns a negative `elapsedSeconds`, in both cases
exactly `floor((now - startTime)/1000)`. -/
theorem negative_elapsed_not_clamped (s : ProviderState) (babyId : String)
    (nap : ActiveNap) (now : Int)
    (h : lookupNap s.activeNaps babyId = some nap)
    (hlt : now < nap.startTime) :
    getElapsedSeconds babyId now s.activeNaps =
      Int.fdiv (now - nap.startTime) 1000 ∧
    getElapsedSeconds babyId now s.activeNaps < 0 ∧
    (stopNap babyId now s).1 =
      some ⟨nap.startTime, now, Int.fdiv (now - nap.startTime) 1000,
            nap.notes⟩ ∧
    Int.fdiv (now - nap.startTime) 1000 < 0 := by
  have hneg : now - nap.startTime < 0 := by omega
  have hdiv : Int.fdiv (now - nap.startTime) 1000 < 0 := by
    rw [Int.fdiv_eq_ediv _ (by norm_num)]
    exact Int.ediv_neg' hneg (by norm_num)
  refine ⟨by simp [getElapsedSeconds, h], ?_, by simp [stopNap, h], hdiv⟩
  simpa [getElapsedSeconds, h] using hdiv

theorem negative_elapsed_not_clamped_witness :
    getElapsedSeconds "a" 5000
        [("a", ⟨"a", "Ana", Gender.feminino, 10000, "n"⟩)] =
      Int.fdiv (5000 - 10000) 1000 ∧
    getElapsedSeconds "a" 5000
        [("a", ⟨"a", "Ana", Gender.feminino, 10000, "n"⟩)] < 0 ∧
    (stopNap "a" 5000
        { activeNaps := [("a", ⟨"a", "Ana", Gender.feminino, 10000, "n"⟩)],
          store := none, notif := none, pendingEffects := false }).1 =
      some ⟨10000, 5000, Int.fdiv (5000 - 10000) 1000, "n"⟩ ∧
    Int.fdiv (5000 - 10000) 1000 < 0 :=
  negative_elapsed_not_clamped
    { activeNaps := [("a", ⟨"a", "Ana", Gender.feminino, 10000, "n"⟩)],
      store := none, notif := none, pendingEffects := false }
    "a" ⟨"a", "Ana", Gender.feminino, 10000, "n"⟩ 5000 (by simp)
    (by norm_num)

/-- C10: `updateNotes` for an active subject replaces exactly that
session's notes — its other fields and every other subject's session are
unchanged — and for a subject with no active session it returns the
provider state unchanged, scheduling no persistence write. -/
theorem updateNotes_frame (s : ProviderState) (babyId notes2 : String) :
    (∀ nap, lookupNap s.activeNaps babyId = some nap →
        ∀ k, lookupNap (updateNotes babyId notes2 s).activeNaps k =
          (if k = babyId then some { nap with notes := notes2 }
           else lookupNap s.activeNaps k)) ∧
    (lookupNap s.activeNaps babyId = none →
        updateNotes babyId notes2 s = s) := by
  constructor
  · intro nap h k
    have hm : (updateNotes babyId notes2 s).activeNaps =
        List.map
          (fun p =>
            if p.1 = babyId then (p.1, { p.2 with notes := notes2 }) else p)
          s.activeNaps := by
      simp [updateNotes, setActiveNaps, updateNotesUpd, h]
    rw [hm, lookupNap_updMap]
    by_cases hk : k = babyId <;> simp [hk, h]
  · intro h
    simp [updateNotes, setActiveNaps, updateNotesUpd, h]

theorem updateNotes_frame_witness :
    lookupNap (updateNotes "a" "new"
        { activeNaps :=
            [("a", ⟨"a", "Ana", Gender.feminino, 1000, "old"⟩),
             ("b", ⟨"b", "Bento", Gender.masculino, 2000, "nb"⟩)],
          store := none, notif := none,
          pendingEffects := false }).activeNaps "a" =
      some ⟨"a", "Ana", Gender.feminino, 1000, "new"⟩ ∧
    lookupNap (updateNotes "a" "new"
        { activeNaps :=
            [("a", ⟨"a", "Ana", Gender.feminino, 1000, "old"⟩),
             ("b", ⟨"b", "Bento", Gender.masculino, 2000, "nb"⟩)],
          store := none, notif := none,
          pendingEffects := false }).activeNaps "b" =
      some ⟨"b", "Bento", Gender.masculino, 2000, "nb"⟩ ∧
    updateNotes "zz" "x"
        { activeNaps :=
            [("a", ⟨"a", "Ana", Gender.feminino, 1000, "old"⟩),
             ("b", ⟨"b", "Bento", Gender.masculino, 2000, "nb"⟩)],
          store := none, notif := none, pendingEffects := false } =
      { activeNaps :=
          [("a", ⟨"a", "Ana", Gender.feminino, 1000, "old"⟩),
           ("b", ⟨"b", "Bento", Gender.masculino, 2000, "nb"⟩)],
        store := none, notif := none, pendingEffects := false } := by
  refine ⟨?_, ?_, ?_⟩
  · have h1 := (updateNotes_frame
      { activeNaps :=
          [("a", ⟨"a", "Ana", Gender.feminino, 1000, "old"⟩),
           ("b", ⟨"b", "Bento", Gender.masculino, 2000, "nb"⟩)],
        store := none, notif := none, pendingEffects := false } "a" "new").1
      ⟨"a", "Ana", Gender.feminino, 1000, "old"⟩ (by simp) "a"
    simpa using h1
  · have h2 := (updateNotes_frame
      { activeNaps :=
          [("a", ⟨"a", "Ana", Gender.feminino, 1000, "old"⟩),
           ("b", ⟨"b", "Bento", Gender.masculino, 2000, "nb"⟩)],
        store := none, notif := none, pendingEffects := false } "a" "new").1
      ⟨"a", "Ana", Gender.feminino, 1000, "old"⟩ (by simp) "b"
    simpa using h2
  · exact (updateNotes_frame
      { activeNaps :=
          [("a", ⟨"a", "Ana", Gender.feminino, 1000, "old"⟩),
           ("b", ⟨"b", "Bento", Gender.masculino, 2000, "nb"⟩)],
        store := none, notif := none, pendingEffects := false }
      "zz" "x").2 (by simp)
